import Mathlib

/-!
Verification of the `process_information` value semantics and the timer
start-argument validation of the modern_concurrency_support library.

Shallow embedding conventions:
* A native OS handle is a `Nat`; the value `0` is the invalid/null sentinel.
* `unique_handle` (modelled from the spec, its source is not in the repository)
  owns one raw handle; operations that may close a handle also return the list
  of raw handle values they closed, so that close/double-close behaviour is
  observable in the model.
* The OS process-id query is an oracle `pidOf : Nat → Option Nat` passed to the
  operations that need it (`none` models a failed query).
-/

/-- Modelled from the spec: `unique_handle<T>` (section 4.1) is not under the
repository source; it owns exactly one raw native handle, with `0` as the
invalid sentinel. -/
structure unique_handle where
  handle : Nat
deriving DecidableEq

/-- Validity test of `unique_handle`: true iff the handle is not the invalid sentinel. -/
def unique_handle.isValid (s : unique_handle) : Bool :=
  s.handle != 0

/-- Modelled from the spec: `unique_handle::reset` closes the currently owned
handle (if any), then stores the new one; returns whether the new handle is
valid.  Result: (new state, closed handles, returned validity). -/
def unique_handle.reset (s : unique_handle) (n : Nat) : unique_handle × List Nat × Bool :=
  (⟨n⟩, (if s.handle != 0 then [s.handle] else []), n != 0)

/-- Modelled from the spec: `unique_handle::release` returns the raw handle and
clears the internal state WITHOUT closing it. -/
def unique_handle.release (s : unique_handle) : Nat × unique_handle :=
  (s.handle, ⟨0⟩)

/-- Modelled from the spec: `process_handle::get_process_id` (section 4.2)
returns `none` if the handle is invalid or the OS query fails, otherwise the
id reported by the OS oracle. -/
def unique_handle.get_process_id (pidOf : Nat → Option Nat) (s : unique_handle) : Option Nat :=
  if s.handle != 0 then pidOf s.handle else none

/-- The native Win32 `PROCESS_INFORMATION` structure. -/
structure PROCESS_INFORMATION where
  hProcess : Nat
  hThread : Nat
  dwProcessId : Nat
  dwThreadId : Nat
deriving DecidableEq

/-- `process_information::deconstruct_type`: the decomposed 4-tuple
(process_id, thread_id, process handle, thread handle). -/
abbrev deconstruct_type : Type := Nat × Nat × Nat × Nat

/-- The `process_information` aggregate: a thread id, an owned process handle
and an owned thread handle (fields named as in the source). -/
structure process_information where
  m_process_thread_id : Nat
  m_process : unique_handle
  m_process_thread_handle : unique_handle
deriving DecidableEq

/-- Default constructor: zero thread id, both handles empty. -/
def process_information.empty : process_information :=
  ⟨0, ⟨0⟩, ⟨0⟩⟩

/-- Constructor from a native `PROCESS_INFORMATION`: copies `dwThreadId`, takes
ownership of `hProcess` and `hThread` (`dwProcessId` is not stored). -/
def process_information.fromNative (s : PROCESS_INFORMATION) : process_information :=
  ⟨s.dwThreadId, ⟨s.hProcess⟩, ⟨s.hThread⟩⟩

/-- `process_information::operator bool`: true iff both owned handles are valid. -/
def process_information.toBool (p : process_information) : Bool :=
  p.m_process.isValid && p.m_process_thread_handle.isValid

/-- `process_information::close`: if the object is valid (both handles), zero
the thread id and reset both handles; otherwise do nothing.  Result: (new
state, closed handles). -/
def process_information.close (p : process_information) : process_information × List Nat :=
  if p.toBool then
    ( ⟨0, (p.m_process.reset 0).1, (p.m_process_thread_handle.reset 0).1⟩
    , (p.m_process.reset 0).2.1 ++ (p.m_process_thread_handle.reset 0).2.1 )
  else (p, [])

/-- The canonical comparison triple (thread_id, process handle, thread handle)
of a `process_information`; `process_id` is never part of it. -/
def triple (p : process_information) : Nat × Nat × Nat :=
  (p.m_process_thread_id, p.m_process.handle, p.m_process_thread_handle.handle)

/-- The comparison triple of a native `PROCESS_INFORMATION` (its `dwProcessId`
is not part of it). -/
def native_triple (s : PROCESS_INFORMATION) : Nat × Nat × Nat :=
  (s.dwThreadId, s.hProcess, s.hThread)

/-- The comparison triple of a decomposed 4-tuple (its first component, the
process id, is not part of it). -/
def tuple_triple (d : deconstruct_type) : Nat × Nat × Nat :=
  (d.2.1, d.2.2.1, d.2.2.2)

/-- `operator==(process_information, process_information)`: compares the
(thread id, process handle, thread handle) triples. -/
def eq_pi_pi (lhs rhs : process_information) : Bool :=
  lhs.m_process_thread_id == rhs.m_process_thread_id &&
  lhs.m_process.handle == rhs.m_process.handle &&
  lhs.m_process_thread_handle.handle == rhs.m_process_thread_handle.handle

/-- `operator!=(process_information, process_information)`. -/
def ne_pi_pi (lhs rhs : process_information) : Bool :=
  !(eq_pi_pi lhs rhs)

/-- `operator==(process_information, PROCESS_INFORMATION)`. -/
def eq_pi_native (lhs : process_information) (rhs : PROCESS_INFORMATION) : Bool :=
  lhs.m_process_thread_id == rhs.dwThreadId &&
  lhs.m_process.handle == rhs.hProcess &&
  lhs.m_process_thread_handle.handle == rhs.hThread

/-- `operator!=(process_information, PROCESS_INFORMATION)`. -/
def ne_pi_native (lhs : process_information) (rhs : PROCESS_INFORMATION) : Bool :=
  !(eq_pi_native lhs rhs)

/-- `operator==(PROCESS_INFORMATION, process_information)`: delegates to the
symmetric direction, as in the source. -/
def eq_native_pi (lhs : PROCESS_INFORMATION) (rhs : process_information) : Bool :=
  eq_pi_native rhs lhs

/-- `operator!=(PROCESS_INFORMATION, process_information)`. -/
def ne_native_pi (lhs : PROCESS_INFORMATION) (rhs : process_information) : Bool :=
  !(eq_native_pi lhs rhs)

/-- `operator==(process_information, deconstruct_type)`: compares against
components 1, 2, 3 of the tuple (component 0, the process id, is ignored). -/
def eq_pi_tuple (lhs : process_information) (rhs : deconstruct_type) : Bool :=
  lhs.m_process_thread_id == rhs.2.1 &&
  lhs.m_process.handle == rhs.2.2.1 &&
  lhs.m_process_thread_handle.handle == rhs.2.2.2

/-- `operator!=(process_information, deconstruct_type)`. -/
def ne_pi_tuple (lhs : process_information) (rhs : deconstruct_type) : Bool :=
  !(eq_pi_tuple lhs rhs)

/-- `operator==(deconstruct_type, process_information)`: delegates to the
symmetric direction, as in the source. -/
def eq_tuple_pi (lhs : deconstruct_type) (rhs : process_information) : Bool :=
  eq_pi_tuple rhs lhs

/-- `operator!=(deconstruct_type, process_information)`. -/
def ne_tuple_pi (lhs : deconstruct_type) (rhs : process_information) : Bool :=
  !(eq_tuple_pi lhs rhs)

/-- `process_information::reset(deconstruct_type&&)`: no-op returning current
validity when already equal; otherwise `close()` then adopt thread id and both
handles, returning the new validity.  Result: (new state, closed handles,
returned validity). -/
def process_information.resetTuple (p : process_information) (d : deconstruct_type) :
    process_information × List Nat × Bool :=
  if eq_pi_tuple p d then (p, [], p.toBool)
  else
    let c := p.close
    let pr := c.1.m_process.reset d.2.2.1
    let tr := c.1.m_process_thread_handle.reset d.2.2.2
    let q : process_information := ⟨d.2.1, pr.1, tr.1⟩
    (q, c.2 ++ pr.2.1 ++ tr.2.1, q.toBool)

/-- `process_information::reset(native_handle_type const&)`: same shape as the
tuple overload, adopting `dwThreadId`, `hProcess`, `hThread`. -/
def process_information.resetNative (p : process_information) (s : PROCESS_INFORMATION) :
    process_information × List Nat × Bool :=
  if eq_pi_native p s then (p, [], p.toBool)
  else
    let c := p.close
    let pr := c.1.m_process.reset s.hProcess
    let tr := c.1.m_process_thread_handle.reset s.hThread
    let q : process_information := ⟨s.dwThreadId, pr.1, tr.1⟩
    (q, c.2 ++ pr.2.1 ++ tr.2.1, q.toBool)

/-- `process_information::release`: builds the decomposed tuple (best-effort
process id, thread id, released process handle, released thread handle), then
zeroes the thread id; nothing is closed. -/
def process_information.release (pidOf : Nat → Option Nat) (p : process_information) :
    deconstruct_type × process_information :=
  ( ( (p.m_process.get_process_id pidOf).getD 0
    , p.m_process_thread_id
    , (p.m_process.release).1
    , (p.m_process_thread_handle.release).1 )
  , ⟨0, (p.m_process.release).2, (p.m_process_thread_handle.release).2⟩ )

/-- `process_information::native_handle`: rebuilds a native structure view
without transferring ownership; `dwProcessId` is best-effort (0 when the
process handle is invalid or the OS query fails). -/
def process_information.native_handle (pidOf : Nat → Option Nat) (p : process_information) :
    PROCESS_INFORMATION :=
  ⟨ p.m_process.handle
  , p.m_process_thread_handle.handle
  , (if p.m_process.isValid then (p.m_process.get_process_id pidOf).getD 0 else 0)
  , p.m_process_thread_id ⟩

/-- `process_information::operator=(process_information&&)`: no-op when the two
objects are already equal, otherwise a full swap.  Result: ((new destination,
new source), closed handles) — the operator never closes anything. -/
def process_information.moveAssign (a b : process_information) :
    (process_information × process_information) × List Nat :=
  if eq_pi_pi a b then ((a, b), []) else ((b, a), [])

/-- The raw handles a `process_information` currently owns (each owned handle
appears once, intended as the list close events of a forced teardown). -/
def owned_handles (p : process_information) : List Nat :=
  (if p.m_process.handle != 0 then [p.m_process.handle] else []) ++
  (if p.m_process_thread_handle.handle != 0 then [p.m_process_thread_handle.handle] else [])

/-- Modelled from the spec: the `start(due_time, period)` argument validation
of the timer types (section 4.5); `timer.h` is not under the repository source,
only its tests are.  Durations are in milliseconds. -/
def timer_start_validation (due_time period : Int) : Except String Unit :=
  if due_time < 0 then Except.error "due_time must be greater than or equal to zero"
  else if period < 0 then Except.error "period must be greater than or equal to zero"
  else Except.ok ()

/-- Modelled from the spec: `delayed_callback<State, Callback>::start` argument
validation. -/
def delayed_callback_start (due_time period : Int) : Except String Unit :=
  timer_start_validation due_time period

/-- Modelled from the spec: `synchronization_timer<State, Callback>::start`
argument validation. -/
def synchronization_timer_start (due_time period : Int) : Except String Unit :=
  timer_start_validation due_time period

/-! ## Helper lemmas -/

theorem eq_pi_pi_iff (lhs rhs : process_information) :
    eq_pi_pi lhs rhs = true ↔ triple lhs = triple rhs := by
  simp [eq_pi_pi, triple, and_assoc]

theorem eq_pi_native_iff (lhs : process_information) (rhs : PROCESS_INFORMATION) :
    eq_pi_native lhs rhs = true ↔ triple lhs = native_triple rhs := by
  simp [eq_pi_native, triple, native_triple, and_assoc]

theorem eq_pi_tuple_iff (lhs : process_information) (rhs : deconstruct_type) :
    eq_pi_tuple lhs rhs = true ↔ triple lhs = tuple_triple rhs := by
  obtain ⟨pid, dtid, dph, dth⟩ := rhs
  simp [eq_pi_tuple, triple, tuple_triple, and_assoc]

/-! ## Claims -/

/-- C7: `operator bool()` returns true if and only if both the owned process
handle and the owned thread handle are valid. -/
theorem operator_bool_spec (p : process_information) :
    p.toBool = true ↔ (p.m_process.isValid = true ∧ p.m_process_thread_handle.isValid = true) := by
  simp [process_information.toBool]

/-- C1: on a non-empty `process_information`, `close()` zeroes the thread id
and closes exactly the process handle and the thread handle; on an empty
object it is a no-op; and a second `close()` right after the first is a no-op
that closes nothing, the object staying in the same empty state
(`operator bool() = false`). -/
theorem close_spec (p : process_information) :
    (p.toBool = true →
      p.close.1 = ⟨0, ⟨0⟩, ⟨0⟩⟩ ∧
      p.close.2 = [p.m_process.handle, p.m_process_thread_handle.handle]) ∧
    (p.toBool = false → p.close = (p, [])) ∧
    p.close.1.toBool = false ∧
    p.close.1.close = (p.close.1, []) := by
  obtain ⟨tid, ⟨ph⟩, ⟨th⟩⟩ := p
  by_cases hph : ph = 0 <;> by_cases hth : th = 0 <;>
    simp [process_information.close, process_information.toBool, unique_handle.isValid,
      unique_handle.reset, hph, hth]

/-- C1 witness: closing a concrete valid object zeroes the id and closes both
handles. -/
theorem close_spec_witness :
    (process_information.close ⟨5, ⟨7⟩, ⟨9⟩⟩).1 = ⟨0, ⟨0⟩, ⟨0⟩⟩ ∧
    (process_information.close ⟨5, ⟨7⟩, ⟨9⟩⟩).2 = [7, 9] :=
  (close_spec ⟨5, ⟨7⟩, ⟨9⟩⟩).1 (by decide)

/-- C10: whenever `operator bool()` is false — including the partially-valid
states where exactly one sub-handle is valid — `close()` leaves every field
unchanged and closes nothing. -/
theorem close_frame_spec (p : process_information) (h : p.toBool = false) :
    p.close = (p, []) := by
  simp [process_information.close, h]

/-- C10 witness: a partially-valid object (valid process handle, invalid
thread handle) is untouched by `close()`. -/
theorem close_frame_spec_witness :
    process_information.close ⟨5, ⟨7⟩, ⟨0⟩⟩ = (⟨5, ⟨7⟩, ⟨0⟩⟩, []) :=
  close_frame_spec ⟨5, ⟨7⟩, ⟨0⟩⟩ (by decide)

/-- C2: move-assignment is a no-op (closing nothing) when the two objects are
already equal — in particular self-move-assignment leaves the object
unchanged — and otherwise performs a full swap, so the moved-from object ends
up holding exactly the previous contents of the destination; it never closes
any resource. -/
theorem move_assign_spec (a b : process_information) :
    (eq_pi_pi a b = true → a.moveAssign b = ((a, b), [])) ∧
    (eq_pi_pi a b = false → a.moveAssign b = ((b, a), [])) ∧
    a.moveAssign a = ((a, a), []) ∧
    (a.moveAssign b).2 = [] := by
  refine ⟨fun h => ?_, fun h => ?_, ?_, ?_⟩
  · simp [process_information.moveAssign, h]
  · simp [process_information.moveAssign, h]
  · simp [process_information.moveAssign, eq_pi_pi]
  · by_cases h : eq_pi_pi a b <;> simp [process_information.moveAssign, h]

/-- C2 witness: move-assigning two concrete unequal objects swaps them. -/
theorem move_assign_spec_witness :
    process_information.moveAssign ⟨1, ⟨2⟩, ⟨3⟩⟩ ⟨4, ⟨5⟩, ⟨6⟩⟩ =
      ((⟨4, ⟨5⟩, ⟨6⟩⟩, ⟨1, ⟨2⟩, ⟨3⟩⟩), []) :=
  (move_assign_spec ⟨1, ⟨2⟩, ⟨3⟩⟩ ⟨4, ⟨5⟩, ⟨6⟩⟩).2.1 (by decide)

/-- Whatever branch `reset` takes, the resulting comparison triple is the one
of the incoming tuple. -/
theorem resetTuple_triple (p : process_information) (d : deconstruct_type) :
    triple (p.resetTuple d).1 = tuple_triple d := by
  rw [process_information.resetTuple]
  split
  · next h => exact (eq_pi_tuple_iff p d).mp h
  · rfl

/-- C3: `release()` immediately followed by `reset()` with the returned
decomposed tuple restores an object equal, by the defined equality on
(thread_id, process handle, thread handle), to the pre-release value. -/
theorem release_reset_spec (pidOf : Nat → Option Nat) (p : process_information) :
    eq_pi_pi ((((p.release pidOf).2).resetTuple (p.release pidOf).1).1) p = true := by
  rw [eq_pi_pi_iff, resetTuple_triple]
  rfl

/-- C4: all comparison directions — `process_information` against
`process_information`, against a raw `PROCESS_INFORMATION` (both ways), and
against a decomposed tuple (both ways), equality and inequality alike — hold
exactly when the (thread_id, process handle, thread handle) triples agree;
since the triples contain no process id, the derived process id is never part
of any comparison. -/
theorem comparison_spec :
    (∀ lhs rhs : process_information,
      eq_pi_pi lhs rhs = true ↔ triple lhs = triple rhs) ∧
    (∀ lhs rhs : process_information,
      ne_pi_pi lhs rhs = true ↔ triple lhs ≠ triple rhs) ∧
    (∀ (lhs : process_information) (rhs : PROCESS_INFORMATION),
      eq_pi_native lhs rhs = true ↔ triple lhs = native_triple rhs) ∧
    (∀ (lhs : process_information) (rhs : PROCESS_INFORMATION),
      ne_pi_native lhs rhs = true ↔ triple lhs ≠ native_triple rhs) ∧
    (∀ (lhs : PROCESS_INFORMATION) (rhs : process_information),
      eq_native_pi lhs rhs = true ↔ native_triple lhs = triple rhs) ∧
    (∀ (lhs : PROCESS_INFORMATION) (rhs : process_information),
      ne_native_pi lhs rhs = true ↔ native_triple lhs ≠ triple rhs) ∧
    (∀ (lhs : process_information) (rhs : deconstruct_type),
      eq_pi_tuple lhs rhs = true ↔ triple lhs = tuple_triple rhs) ∧
    (∀ (lhs : process_information) (rhs : deconstruct_type),
      ne_pi_tuple lhs rhs = true ↔ triple lhs ≠ tuple_triple rhs) ∧
    (∀ (lhs : deconstruct_type) (rhs : process_information),
      eq_tuple_pi lhs rhs = true ↔ tuple_triple lhs = triple rhs) ∧
    (∀ (lhs : deconstruct_type) (rhs : process_information),
      ne_tuple_pi lhs rhs = true ↔ tuple_triple lhs ≠ triple rhs) := by
  refine ⟨eq_pi_pi_iff, fun l r => ?_, eq_pi_native_iff, fun l r => ?_,
    fun l r => ?_, fun l r => ?_, eq_pi_tuple_iff, fun l r => ?_,
    fun l r => ?_, fun l r => ?_⟩
  · simp [ne_pi_pi, ← eq_pi_pi_iff]
  · simp [ne_pi_native, ← eq_pi_native_iff]
  · rw [eq_native_pi, eq_pi_native_iff, eq_comm]
  · rw [ne_native_pi, Bool.not_eq_true', ← Bool.not_eq_true, eq_native_pi,
      eq_pi_native_iff, eq_comm]
  · simp [ne_pi_tuple, ← eq_pi_tuple_iff]
  · rw [eq_tuple_pi, eq_pi_tuple_iff, eq_comm]
  · rw [ne_tuple_pi, Bool.not_eq_true', ← Bool.not_eq_true, eq_tuple_pi,
      eq_pi_tuple_iff, eq_comm]

/-- C5: constructing from a native structure and reading `native_handle()`
back reproduces `hProcess`, `hThread` and `dwThreadId` exactly; on an
OS-populated structure (the pid oracle, when it answers for `hProcess`,
answers with `dwProcessId`) the `dwProcessId` field is reproduced too, except
that it falls back to 0 when the process handle is invalid or the query
fails. -/
theorem native_handle_roundtrip (pidOf : Nat → Option Nat) (s : PROCESS_INFORMATION)
    (hpop : ∀ pid, pidOf s.hProcess = some pid → pid = s.dwProcessId) :
    ((process_information.fromNative s).native_handle pidOf).hProcess = s.hProcess ∧
    ((process_information.fromNative s).native_handle pidOf).hThread = s.hThread ∧
    ((process_information.fromNative s).native_handle pidOf).dwThreadId = s.dwThreadId ∧
    ((process_information.fromNative s).native_handle pidOf).dwProcessId =
      (if s.hProcess ≠ 0 ∧ (pidOf s.hProcess).isSome = true then s.dwProcessId else 0) := by
  obtain ⟨hp, ht, dpid, dtid⟩ := s
  refine ⟨rfl, rfl, rfl, ?_⟩
  simp only at hpop
  by_cases hh : hp = 0
  · simp [process_information.fromNative, process_information.native_handle,
      unique_handle.isValid, unique_handle.get_process_id, hh]
  · cases hpid : pidOf hp with
    | none =>
        simp [process_information.fromNative, process_information.native_handle,
          unique_handle.isValid, unique_handle.get_process_id, hh, hpid]
    | some v =>
        have hv := hpop v hpid
        simp [process_information.fromNative, process_information.native_handle,
          unique_handle.isValid, unique_handle.get_process_id, hh, hpid, hv]

/-- C5 witness: on a concrete OS-populated structure, the reconstructed
`dwProcessId` is the original one (no fallback, the handle valid and the
query succeeding). -/
theorem native_handle_roundtrip_witness :
    ((process_information.fromNative ⟨7, 8, 42, 9⟩).native_handle
        (fun h => if h = 7 then some 42 else none)).dwProcessId =
      (if (7:Nat) ≠ 0 ∧ ((fun h : Nat => if h = 7 then some 42 else none) 7).isSome = true
        then (42:Nat) else 0) :=
  (native_handle_roundtrip (fun h => if h = 7 then some 42 else none) ⟨7, 8, 42, 9⟩
    (by intro pid hp; show pid = 42; simp at hp; omega)).2.2.2

/-- C6: for both overloads, `reset` is a no-op returning the current validity
when the object already equals the incoming value; otherwise the new state is
exactly the adopted (thread id, process handle, thread handle), the closed
handles are exactly the previously owned (valid) ones, and the returned value
is the validity of the newly adopted state. -/
theorem reset_spec (p : process_information) (d : deconstruct_type) (s : PROCESS_INFORMATION) :
    (eq_pi_tuple p d = true → p.resetTuple d = (p, [], p.toBool)) ∧
    (eq_pi_tuple p d = false →
      (p.resetTuple d).1 = ⟨d.2.1, ⟨d.2.2.1⟩, ⟨d.2.2.2⟩⟩ ∧
      (p.resetTuple d).2.1 = owned_handles p ∧
      (p.resetTuple d).2.2 = (p.resetTuple d).1.toBool) ∧
    (eq_pi_native p s = true → p.resetNative s = (p, [], p.toBool)) ∧
    (eq_pi_native p s = false →
      (p.resetNative s).1 = ⟨s.dwThreadId, ⟨s.hProcess⟩, ⟨s.hThread⟩⟩ ∧
      (p.resetNative s).2.1 = owned_handles p ∧
      (p.resetNative s).2.2 = (p.resetNative s).1.toBool) := by
  obtain ⟨tid, ⟨ph⟩, ⟨th⟩⟩ := p
  refine ⟨fun h => ?_, fun h => ?_, fun h => ?_, fun h => ?_⟩
  · simp [process_information.resetTuple, h]
  · by_cases hph : ph = 0 <;> by_cases hth : th = 0 <;>
      simp_all [process_information.resetTuple, process_information.close,
        process_information.toBool, unique_handle.isValid, unique_handle.reset,
        owned_handles]
  · simp [process_information.resetNative, h]
  · by_cases hph : ph = 0 <;> by_cases hth : th = 0 <;>
      simp_all [process_information.resetNative, process_information.close,
        process_information.toBool, unique_handle.isValid, unique_handle.reset,
        owned_handles]

/-- C6 witness: resetting a concrete partially-valid object with an unequal
tuple adopts the tuple and closes exactly the one owned handle. -/
theorem reset_spec_witness :
    (process_information.resetTuple ⟨1, ⟨2⟩, ⟨0⟩⟩ (9, 4, 5, 6)).1 = ⟨4, ⟨5⟩, ⟨6⟩⟩ ∧
    (process_information.resetTuple ⟨1, ⟨2⟩, ⟨0⟩⟩ (9, 4, 5, 6)).2.1 =
      owned_handles ⟨1, ⟨2⟩, ⟨0⟩⟩ :=
  let h := (reset_spec ⟨1, ⟨2⟩, ⟨0⟩⟩ (9, 4, 5, 6) ⟨0, 0, 0, 0⟩).2.1 (by decide)
  ⟨h.1, h.2.1⟩

/-- C8: for every `due_time < 0`, `start(due_time, period)` on a
`delayed_callback` or a `synchronization_timer` fails with the exact message
"due_time must be greater than or equal to zero". -/
theorem start_due_time_spec (due_time period : Int) (h : due_time < 0) :
    delayed_callback_start due_time period =
        Except.error "due_time must be greater than or equal to zero" ∧
    synchronization_timer_start due_time period =
        Except.error "due_time must be greater than or equal to zero" := by
  constructor <;>
    simp [delayed_callback_start, synchronization_timer_start, timer_start_validation, h]

/-- C8 witness: start(-50ms, 100ms), the value used by the repository tests. -/
theorem start_due_time_spec_witness :
    delayed_callback_start (-50) 100 =
        Except.error "due_time must be greater than or equal to zero" ∧
    synchronization_timer_start (-50) 100 =
        Except.error "due_time must be greater than or equal to zero" :=
  start_due_time_spec (-50) 100 (by decide)

/-- C9: for every `period < 0` and `due_time ≥ 0`, `start(due_time, period)`
on a `delayed_callback` or a `synchronization_timer` fails with the exact
message "period must be greater than or equal to zero". -/
theorem start_period_spec (due_time period : Int) (hd : 0 ≤ due_time) (hp : period < 0) :
    delayed_callback_start due_time period =
        Except.error "period must be greater than or equal to zero" ∧
    synchronization_timer_start due_time period =
        Except.error "period must be greater than or equal to zero" := by
  have h1 : ¬due_time < 0 := not_lt.mpr hd
  constructor <;>
    simp [delayed_callback_start, synchronization_timer_start, timer_start_validation, h1, hp]

/-- C9 witness: start(0ms, -50ms), the value used by the repository tests. -/
theorem start_period_spec_witness :
    delayed_callback_start 0 (-50) =
        Except.error "period must be greater than or equal to zero" ∧
    synchronization_timer_start 0 (-50) =
        Except.error "period must be greater than or equal to zero" :=
  start_period_spec 0 (-50) (by decide) (by decide)
